import Mathlib

/-!
Verification development for the `AU_R-CNN` time-axis detection post-processing
pipeline. The embedding follows the two source files
`time_axis_rcnn/model/time_segment_network/generate_anchors.py` and
`time_axis_rcnn/model/time_segment_network/faster_rcnn_predictor.py`.
Floating-point coordinates and scores are modelled exactly as rationals (for
the anchor generator, whose arithmetic is exact) and generically over a linear
ordered field (for the predictor, instantiated at `ℝ` where the real
exponential is needed).
-/

set_option maxHeartbeats 1000000

/-! ## Anchor generation (`generate_anchors.py`) -/

/-- `_mkanchors(ws, x_ctr)`: given widths `ws` around the scalar center
`x_ctr`, output the anchors `(x_ctr - 0.5*(w-1), x_ctr + 0.5*(w-1))`. -/
def _mkanchors (ws : List ℚ) (x_ctr : ℚ) : List (ℚ × ℚ) :=
  ws.map (fun w => (x_ctr - (1/2) * (w - 1), x_ctr + (1/2) * (w - 1)))

/-- `_whctrs(anchor)`: width and center of an `(x_min, x_max)` anchor,
with the discrete width convention `w = x_max - x_min + 1`. -/
def _whctrs (anchor : ℚ × ℚ) : ℚ × ℚ :=
  let w := anchor.2 - anchor.1 + 1
  (w, anchor.1 + (1/2) * (w - 1))

/-- `_scale_enum(anchor, scales)`: enumerate anchors for each scale
(`ws = w * scales`, then `_mkanchors`). -/
def _scale_enum (anchor : ℚ × ℚ) (scales : List ℚ) : List (ℚ × ℚ) :=
  let wc := _whctrs anchor
  _mkanchors (scales.map (fun s => wc.1 * s)) wc.2

/-- `generate_anchors(base_size, scales)`: base anchor is
`np.array([1, base_size]) - 1 = (0, base_size - 1)`, then `_scale_enum`. -/
def generate_anchors (base_size : ℕ) (scales : List ℚ) : List (ℚ × ℚ) :=
  _scale_enum ((0 : ℚ), (base_size : ℚ) - 1) scales

/-- `get_all_anchors(time_seq_len, stride, sizes)`: the `(K, A, 2)` grid of
shifted base anchors, `K = time_seq_len // stride` grid positions (outer
axis), `A` scales (inner axis), the anchor at position `k` being the base
anchor translated by `k * stride` on both coordinates. -/
def get_all_anchors (time_seq_len stride : ℕ) (sizes : List ℚ) : List (List (ℚ × ℚ)) :=
  let base_anchors := generate_anchors stride sizes
  let field_size := time_seq_len / stride
  (List.range field_size).map (fun k =>
    base_anchors.map (fun a =>
      (a.1 + ((k * stride : ℕ) : ℚ), a.2 + ((k * stride : ℕ) : ℚ))))

/-! ## Predictor (`faster_rcnn_predictor.py`)

The predictor works on floating-point arrays; we model the scalars generically
over a linear ordered field `α` (instantiated at `ℚ` for executable claims and
at `ℝ` where the exponential of the decode/softmax steps is needed).  A
`(R, n_class, 2)` localization array is a list of `R` rows of `n_class`
intervals; a `(R, n_class)` score array is a list of `R` rows of `n_class`
scalars.  Python/numpy runtime failures (raised exceptions) are modelled with
`Except PyError`. -/

/-- Exceptions the predictor code can raise: `ValueError` (unknown preset in
`use_preset`, `np.concatenate` on an empty list), `AttributeError` (reading
`nms_thresh`/`score_thresh` before they were ever assigned), numpy's
`IndexError` (a boolean mask whose length differs from the indexed array) and
`AssertionError` (the `assert` in `predict`). -/
inductive PyError : Type
  | valueError (msg : String)
  | attributeError (name : String)
  | indexError (msg : String)
  | assertionError (msg : String)
deriving DecidableEq

section Predictor

variable {α : Type} [LinearOrderedField α]

/-- State of a `TimeSegmentRCNNPredictor`.  The sub-networks `spn` and `head`
are external collaborators; of `head` only its class count `n_class` (total
classes including background) is consumed by the code under verification, so
it is kept as a field.  `nms_thresh` and `score_thresh` are `Option`s because
`__init__` never assigns them: `none` models the absent attribute. -/
structure TimeSegmentRCNNPredictor (α : Type) : Type where
  loc_normalize_mean : α × α
  loc_normalize_std : α × α
  n_class : ℕ
  nms_thresh : Option α
  score_thresh : Option α

/-- `__init__`: stores the normalization constants; `nms_thresh` and
`score_thresh` are left unassigned. -/
def TimeSegmentRCNNPredictor.init (mean std : α × α) (n_class : ℕ) :
    TimeSegmentRCNNPredictor α :=
  ⟨mean, std, n_class, none, none⟩

/-- `use_preset(preset)`: mutates `nms_thresh`/`score_thresh` for the known
presets and raises `ValueError` otherwise.  Returned as (state after the call,
raised exception if any); on the error path no attribute was assigned, so the
state is returned unchanged. -/
def use_preset (p : TimeSegmentRCNNPredictor α) (preset : String) :
    TimeSegmentRCNNPredictor α × Option PyError :=
  if preset = "visualize" then
    ({ p with nms_thresh := some (3/10), score_thresh := some (7/10) }, none)
  else if preset = "evaluate" then
    ({ p with nms_thresh := some (3/10), score_thresh := some (1/20) }, none)
  else
    (p, some (PyError.valueError "preset must be visualize or evaluate"))

/-- Numpy boolean-mask selection `xs[mask]`: keeps the entries whose mask bit
is true; numpy raises `IndexError` when the mask length does not match. -/
def maskSelect {β : Type} (xs : List β) (mask : List Bool) :
    Except PyError (List β) :=
  if xs.length = mask.length then
    Except.ok (((xs.zip mask).filter (fun pr => pr.2)).map (fun pr => pr.1))
  else
    Except.error (PyError.indexError "boolean index did not match indexed array")

/-- Mask selection without the length check (used to state what the checked
version returns on well-shaped input). -/
def maskSelectP {β : Type} (xs : List β) (mask : List Bool) : List β :=
  ((xs.zip mask).filter (fun pr => pr.2)).map (fun pr => pr.1)

/-- Modelled from the spec: 1-D IoU of two intervals with the discrete width
convention `w = x_max - x_min + 1` (the module
`util/bbox/non_maximum_suppression` is not under `src/`; spec section 4.3). -/
def iou_1d (a b : α × α) : α :=
  let inter := max 0 (min a.2 b.2 - max a.1 b.1 + 1)
  inter / ((a.2 - a.1 + 1) + (b.2 - b.1 + 1) - inter)

/-- Modelled from the spec: greedy suppression pass — take the best remaining
candidate, drop every remaining candidate whose IoU with it exceeds the
threshold, repeat (spec section 4.3, step 2). -/
def nms_greedy (boxes : List (α × α)) (thresh : α) : List ℕ → List ℕ
  | [] => []
  | i :: rest =>
    i :: nms_greedy boxes thresh
      (rest.filter (fun j => decide (iou_1d (boxes.getD i (0, 0)) (boxes.getD j (0, 0)) ≤ thresh)))
termination_by l => l.length
decreasing_by
  simp only [List.length_cons]
  exact Nat.lt_succ_of_le (List.length_filter_le _ _)

/-- Modelled from the spec: `non_maximum_suppression(bbox, thresh, score)`
(the module `util/bbox/non_maximum_suppression` is not under `src/`): sort
candidate indices by descending score with ties broken by input order (a
stable sort), then run the greedy pass; returns the kept indices in that
order (spec section 4.3). -/
def non_maximum_suppression (bbox : List (α × α)) (thresh : α) (score : List α) :
    List ℕ :=
  nms_greedy bbox thresh
    ((List.range bbox.length).insertionSort (fun i j => score.getD j 0 ≤ score.getD i 0))

/-- One iteration of the `_suppress` class loop for class `l`, following the
source line by line: take column `l` of the `(R, n_class, 2)` boxes and of the
`(R, n_class)` scores, read `self.score_thresh` (an unset attribute raises),
build and apply the boolean mask (numpy raises on a length mismatch), read
`self.nms_thresh`, run NMS and keep the survivors. -/
def suppress_class (p : TimeSegmentRCNNPredictor α)
    (raw_cls_bbox : List (List (α × α))) (raw_score : List (List α)) (l : ℕ) :
    Except PyError (List (α × α) × List α) :=
  let cls_bbox_l := raw_cls_bbox.map (fun row => row.getD l (0, 0))
  let prob_l := raw_score.map (fun row => row.getD l 0)
  match p.score_thresh with
  | none => Except.error (PyError.attributeError "score_thresh")
  | some st =>
    let mask := prob_l.map (fun pr => decide (st < pr))
    match maskSelect cls_bbox_l mask, maskSelect prob_l mask with
    | Except.error e, _ => Except.error e
    | Except.ok _, Except.error e => Except.error e
    | Except.ok cb, Except.ok pb =>
      match p.nms_thresh with
      | none => Except.error (PyError.attributeError "nms_thresh")
      | some nt =>
        let keep := non_maximum_suppression cb nt pb
        Except.ok (keep.map (fun i => cb.getD i (0, 0)), keep.map (fun i => pb.getD i 0))

/-- The pure value `suppress_class` computes on well-shaped input with both
thresholds set. -/
def suppress_class_pure (nt st : α)
    (raw_cls_bbox : List (List (α × α))) (raw_score : List (List α)) (l : ℕ) :
    List (α × α) × List α :=
  let cls_bbox_l := raw_cls_bbox.map (fun row => row.getD l (0, 0))
  let prob_l := raw_score.map (fun row => row.getD l 0)
  let mask := prob_l.map (fun pr => decide (st < pr))
  let cb := maskSelectP cls_bbox_l mask
  let pb := maskSelectP prob_l mask
  let keep := non_maximum_suppression cb nt pb
  (keep.map (fun i => cb.getD i (0, 0)), keep.map (fun i => pb.getD i 0))

/-- The `for l in range(1, self.n_class)` loop of `_suppress`: per class the
survivors' boxes, the label array `(l - 1) * np.ones(len(keep))` and the
survivors' scores are appended; an exception aborts the loop. -/
def suppress_loop (p : TimeSegmentRCNNPredictor α)
    (raw_cls_bbox : List (List (α × α))) (raw_score : List (List α)) :
    List ℕ → Except PyError (List (List (α × α) × List ℤ × List α))
  | [] => Except.ok []
  | l :: rest =>
    match suppress_class p raw_cls_bbox raw_score l with
    | Except.error e => Except.error e
    | Except.ok r =>
      match suppress_loop p raw_cls_bbox raw_score rest with
      | Except.error e => Except.error e
      | Except.ok rs =>
        Except.ok ((r.1, List.replicate r.1.length ((l : ℤ) - 1), r.2) :: rs)

/-- `_suppress(raw_cls_bbox, raw_score)`: loop over the foreground classes
`1 .. n_class - 1` and concatenate; `np.concatenate` on the empty list (no
foreground class at all) raises `ValueError`. -/
def _suppress (p : TimeSegmentRCNNPredictor α)
    (raw_cls_bbox : List (List (α × α))) (raw_score : List (List α)) :
    Except PyError (List (α × α) × List ℤ × List α) :=
  match suppress_loop p raw_cls_bbox raw_score (List.range' 1 (p.n_class - 1)) with
  | Except.error e => Except.error e
  | Except.ok results =>
    if results.isEmpty then
      Except.error (PyError.valueError "need at least one array to concatenate")
    else
      Except.ok ((results.map (fun r => r.1)).flatten,
                 (results.map (fun r => r.2.1)).flatten,
                 (results.map (fun r => r.2.2)).flatten)

/-- Modelled from the spec: `decode_segment_target(roi, loc)` (the module
`util/bbox/bbox_util` is not under `src/`; spec section 4.2): width/center of
the reference interval with the `+1` convention, center shift `dx * w`,
width scaling `exp(dw) * w`, then back to `(x_min, x_max)`.  The exponential
is abstracted as `expf` and instantiated with `Real.exp`. -/
def decode_segment_target (expf : α → α) (roi loc : α × α) : α × α :=
  let ref_width := roi.2 - roi.1 + 1
  let ref_ctr := roi.1 + (1/2) * (ref_width - 1)
  let ctr := loc.1 * ref_width + ref_ctr
  let width := expf loc.2 * ref_width
  (ctr - (1/2) * (width - 1), ctr + (1/2) * (width - 1))

/-- `np.clip(x, lo, hi)` on a scalar. -/
def npclip (lo hi x : α) : α := min (max x lo) hi

/-- Lines 252–265 of `predict`: denormalize the per-class offsets with the
tiled `loc_normalize_std`/`loc_normalize_mean`, broadcast each RoI across the
class axis, decode, and clip every coordinate to `[0, seq_len]`. -/
def predict_decode_clip (expf : α → α) (p : TimeSegmentRCNNPredictor α)
    (roi_cls_locs : List (List (α × α))) (rois : List (α × α)) (seq_len : ℕ) :
    List (List (α × α)) :=
  (roi_cls_locs.zip rois).map (fun pr =>
    pr.1.map (fun loc =>
      let loc' := (loc.1 * p.loc_normalize_std.1 + p.loc_normalize_mean.1,
                   loc.2 * p.loc_normalize_std.2 + p.loc_normalize_mean.2)
      let d := decode_segment_target expf pr.2 loc'
      (npclip 0 (seq_len : α) d.1, npclip 0 (seq_len : α) d.2)))

/-- Modelled from the spec: chainer's `F.softmax` along the class axis (the
library function is external to the repository). -/
def softmax (expf : α → α) (m : List (List α)) : List (List α) :=
  m.map (fun row => row.map (fun s => expf s / (row.map expf).sum))

/-- `predict` for one batch element, from the `assert` (line 243) onward.  The
external `spn`/`head` collaborators are out of scope, so their outputs
`roi_cls_locs` (shape `(R, n_class, 2)`), `roi_scores` (shape `(R, n_class)`)
and `rois` (shape `(R, 2)`) are inputs here; `seq_len` is
`feature_1D.shape[2]`.  Decode + clip, softmax, then `_suppress`. -/
def predict (expf : α → α) (p : TimeSegmentRCNNPredictor α)
    (roi_cls_locs : List (List (α × α))) (roi_scores : List (List α))
    (rois : List (α × α)) (seq_len : ℕ) :
    Except PyError (List (α × α) × List ℤ × List α) :=
  if roi_cls_locs.length = rois.length then
    _suppress p (predict_decode_clip expf p roi_cls_locs rois seq_len)
      (softmax expf roi_scores)
  else
    Except.error (PyError.assertionError "roi_cls_locs.shape[0] == rois.shape[0]")

end Predictor

/-! ## Helper lemmas about list indexing -/

theorem getD_map_of_lt {β γ : Type} (f : β → γ) (l : List β) (i : ℕ)
    (h : i < l.length) (d : β) (d' : γ) :
    (l.map f).getD i d' = f (l.getD i d) := by
  rw [List.getD_eq_getElem?_getD, List.getD_eq_getElem?_getD, List.getElem?_map,
    List.getElem?_eq_getElem h]
  rfl

theorem length_generate_anchors (base_size : ℕ) (scales : List ℚ) :
    (generate_anchors base_size scales).length = scales.length := by
  simp [generate_anchors, _scale_enum, _mkanchors]

theorem generate_anchors_getD (base_size : ℕ) (scales : List ℚ) (i : ℕ)
    (hi : i < scales.length) :
    (generate_anchors base_size scales).getD i (0, 0) =
      ((1/2) * ((base_size : ℚ) - 1) - (1/2) * ((base_size : ℚ) * scales.getD i 0 - 1),
       (1/2) * ((base_size : ℚ) - 1) + (1/2) * ((base_size : ℚ) * scales.getD i 0 - 1)) := by
  unfold generate_anchors _scale_enum _whctrs _mkanchors
  rw [List.map_map]
  rw [getD_map_of_lt _ scales i hi 0]
  simp only [Function.comp, Prod.mk.injEq]
  constructor <;> ring

/-- Scenario from the spec: `generate_anchors(stride=16, scales=[1,2])`
produces `[0,15]` and `[-8,23]`. -/
theorem generate_anchors_16 :
    generate_anchors 16 [1, 2] = [((0 : ℚ), (15 : ℚ)), ((-8 : ℚ), (23 : ℚ))] := by
  norm_num [generate_anchors, _scale_enum, _whctrs, _mkanchors]

/-- C3: base anchor generation is a center-preserving rescale of the reference
interval `[0, stride-1]`: with `w = stride` and `x_ctr = 0.5*(w-1)`, the `i`-th
emitted interval is `(x_ctr - 0.5*(w*s_i - 1), x_ctr + 0.5*(w*s_i - 1))`; in
particular `generate_anchors(stride=16, scales=[1,2])` yields exactly `[0,15]`
and `[-8,23]`, in that order. -/
theorem C3_generate_anchors_center_preserving (base_size : ℕ) (scales : List ℚ)
    (i : ℕ) (hi : i < scales.length) :
    (generate_anchors base_size scales).getD i (0, 0) =
      ((1/2) * ((base_size : ℚ) - 1) - (1/2) * ((base_size : ℚ) * scales.getD i 0 - 1),
       (1/2) * ((base_size : ℚ) - 1) + (1/2) * ((base_size : ℚ) * scales.getD i 0 - 1))
    ∧ generate_anchors 16 [1, 2] = [((0 : ℚ), (15 : ℚ)), ((-8 : ℚ), (23 : ℚ))] :=
  ⟨generate_anchors_getD base_size scales i hi, generate_anchors_16⟩

/-- Witness for C3 at `stride = 16`, `scales = [1, 2]`, `i = 1`. -/
theorem C3_witness :
    (generate_anchors 16 [(1 : ℚ), 2]).getD 1 (0, 0) =
      ((1/2) * ((16 : ℚ) - 1) - (1/2) * ((16 : ℚ) * [(1 : ℚ), 2].getD 1 0 - 1),
       (1/2) * ((16 : ℚ) - 1) + (1/2) * ((16 : ℚ) * [(1 : ℚ), 2].getD 1 0 - 1))
    ∧ generate_anchors 16 [1, 2] = [((0 : ℚ), (15 : ℚ)), ((-8 : ℚ), (23 : ℚ))] :=
  C3_generate_anchors_center_preserving 16 [1, 2] 1 (by decide)

/-- Indexing into the flattening of a list of lists of uniform length `A`:
the element at flat index `i * A + j` is the `j`-th element of the `i`-th row. -/
theorem flatten_getD_uniform {β : Type} (A : ℕ) (d : β) :
    ∀ (ls : List (List β)), (∀ l ∈ ls, l.length = A) →
      ∀ i j, i < ls.length → j < A →
        ls.flatten.getD (i * A + j) d = (ls.getD i []).getD j d := by
  intro ls
  induction ls with
  | nil => intro _ i j hi _; simp at hi
  | cons x xs ih =>
    intro hA i j hi hj
    have hx : x.length = A := hA x (List.mem_cons_self x xs)
    cases i with
    | zero =>
      rw [List.flatten_cons]
      have hjx : (0 : ℕ) * A + j < x.length := by omega
      rw [List.getD_eq_getElem?_getD, List.getElem?_append_left hjx]
      simp [List.getD_eq_getElem?_getD]
    | succ i =>
      rw [List.flatten_cons]
      have hge : x.length ≤ (i + 1) * A + j := by
        rw [hx, Nat.succ_mul]; omega
      rw [List.getD_eq_getElem?_getD, List.getElem?_append_right hge]
      have harith : (i + 1) * A + j - x.length = i * A + j := by
        rw [hx, Nat.succ_mul]; omega
      have hi' : i < xs.length := by
        simp only [List.length_cons] at hi; omega
      rw [harith, ← List.getD_eq_getElem?_getD,
        ih (fun l hl => hA l (List.mem_cons_of_mem x hl)) i j hi' hj]
      simp

theorem get_all_anchors_length (L st : ℕ) (sc : List ℚ) :
    (get_all_anchors L st sc).length = L / st := by
  simp [get_all_anchors]

theorem get_all_anchors_row_length (L st : ℕ) (sc : List ℚ) :
    ∀ row ∈ get_all_anchors L st sc, row.length = sc.length := by
  intro row hrow
  simp only [get_all_anchors, List.mem_map] at hrow
  obtain ⟨k, _, rfl⟩ := hrow
  simp [length_generate_anchors]

theorem get_all_anchors_getD_row (L st : ℕ) (sc : List ℚ) (k : ℕ)
    (hk : k < L / st) :
    (get_all_anchors L st sc).getD k [] =
      (generate_anchors st sc).map (fun a =>
        (a.1 + ((k * st : ℕ) : ℚ), a.2 + ((k * st : ℕ) : ℚ))) := by
  unfold get_all_anchors
  rw [List.getD_eq_getElem?_getD, List.getElem?_map,
    List.getElem?_range (by simpa using hk)]
  rfl

/-- The anchor of the flattened grid at position `k`, scale slot `a`, is the
base anchor for scale slot `a` translated by `k * stride` on both coordinates. -/
theorem get_all_anchors_getD (L st : ℕ) (sc : List ℚ) (k a : ℕ)
    (hk : k < L / st) (ha : a < sc.length) :
    ((get_all_anchors L st sc).flatten).getD (k * sc.length + a) (0, 0) =
      (((generate_anchors st sc).getD a (0, 0)).1 + ((k * st : ℕ) : ℚ),
       ((generate_anchors st sc).getD a (0, 0)).2 + ((k * st : ℕ) : ℚ)) := by
  rw [flatten_getD_uniform sc.length (0, 0) (get_all_anchors L st sc)
    (get_all_anchors_row_length L st sc) k a
    (by rw [get_all_anchors_length]; exact hk) ha]
  rw [get_all_anchors_getD_row L st sc k hk]
  rw [getD_map_of_lt _ _ a (by rw [length_generate_anchors]; exact ha) (0, 0)]

/-- C4: the tiled anchor grid is ordered position-major, scale-minor, and the
anchor at grid position `k` (for `k < sequence_length // stride`) with scale
index `a` equals the base anchor for scale index `a` translated by
`k * stride` on both coordinates. -/
theorem C4_tiling_position_major (L st : ℕ) (sc : List ℚ) (k a : ℕ)
    (hst : 0 < st) (hk : k < L / st) (ha : a < sc.length) :
    ((get_all_anchors L st sc).flatten).getD (k * sc.length + a) (0, 0) =
      (((generate_anchors st sc).getD a (0, 0)).1 + ((k * st : ℕ) : ℚ),
       ((generate_anchors st sc).getD a (0, 0)).2 + ((k * st : ℕ) : ℚ)) :=
  get_all_anchors_getD L st sc k a hk ha

/-- Witness for C4 at `sequence_length = 4`, `stride = 2`, `scales = [1, 2]`,
grid position `k = 1`, scale index `a = 1`. -/
theorem C4_witness :
    ((get_all_anchors 4 2 [(1 : ℚ), 2]).flatten).getD (1 * 2 + 1) (0, 0) =
      (((generate_anchors 2 [(1 : ℚ), 2]).getD 1 (0, 0)).1 + ((1 * 2 : ℕ) : ℚ),
       ((generate_anchors 2 [(1 : ℚ), 2]).getD 1 (0, 0)).2 + ((1 * 2 : ℕ) : ℚ)) :=
  C4_tiling_position_major 4 2 [1, 2] 1 1 (by decide) (by decide) (by decide)

theorem get_all_anchors_flatten_length (L st : ℕ) (sc : List ℚ) :
    ((get_all_anchors L st sc).flatten).length = (L / st) * sc.length := by
  rw [List.length_flatten]
  have h1 : (get_all_anchors L st sc).map List.length =
      List.replicate (L / st) sc.length := by
    have h2 : ∀ l ∈ get_all_anchors L st sc, List.length l = sc.length :=
      get_all_anchors_row_length L st sc
    calc (get_all_anchors L st sc).map List.length
        = (get_all_anchors L st sc).map (fun _ => sc.length) := List.map_congr_left h2
      _ = List.replicate (get_all_anchors L st sc).length sc.length := List.map_const' _ _
      _ = List.replicate (L / st) sc.length := by rw [get_all_anchors_length]
  rw [h1, List.sum_replicate, smul_eq_mul]

/-- C5 (amended): the tiled grid has exactly `(sequence_length // stride) *
len(scales)` intervals (floor division), and the interval at position `k`,
scale slot `a` satisfies `x_min < x_max` whenever `stride * scale > 1`.
(The original claim's condition `scale > 0` is too weak: at
`stride * scale = 1` the interval degenerates to a single point.) -/
theorem C5_anchor_count_and_width (L st : ℕ) (sc : List ℚ)
    (hst : 0 < st) (hsc : sc ≠ []) :
    ((get_all_anchors L st sc).flatten).length = (L / st) * sc.length ∧
    ∀ k a, k < L / st → a < sc.length → 1 < (st : ℚ) * sc.getD a 0 →
      (((get_all_anchors L st sc).flatten).getD (k * sc.length + a) (0, 0)).1 <
      (((get_all_anchors L st sc).flatten).getD (k * sc.length + a) (0, 0)).2 := by
  refine ⟨get_all_anchors_flatten_length L st sc, ?_⟩
  intro k a hk ha hwide
  rw [get_all_anchors_getD L st sc k a hk ha]
  rw [generate_anchors_getD st sc a ha]
  simp only []
  linarith

/-- Witness for C5 (amended) at `sequence_length = 5`, `stride = 2`,
`scales = [1, 2]`, `k = 0`, `a = 1`. -/
theorem C5_witness :
    ((get_all_anchors 5 2 [(1 : ℚ), 2]).flatten).length = (5 / 2) * 2 ∧
    (1 : ℚ) < (2 : ℚ) * [(1 : ℚ), 2].getD 1 0 ∧
    (((get_all_anchors 5 2 [(1 : ℚ), 2]).flatten).getD (0 * 2 + 1) (0, 0)).1 <
    (((get_all_anchors 5 2 [(1 : ℚ), 2]).flatten).getD (0 * 2 + 1) (0, 0)).2 := by
  have h := C5_anchor_count_and_width 5 2 [(1 : ℚ), 2] (by decide) (by decide)
  refine ⟨h.1, by norm_num, ?_⟩
  exact h.2 0 1 (by decide) (by decide) (by norm_num)

/-- Counterexample to C5 as stated: at `sequence_length = 1`, `stride = 1`,
`scales = [1]` the single produced interval is `(0, 0)`, so `x_min < x_max`
fails even though the scale `1` is positive. -/
theorem C5_counterexample :
    (0 : ℚ) < 1 ∧
    ¬ (∀ iv ∈ (get_all_anchors 1 1 [(1 : ℚ)]).flatten, iv.1 < iv.2) := by
  constructor
  · norm_num
  · intro h
    have hflat : (get_all_anchors 1 1 [(1 : ℚ)]).flatten = [((0 : ℚ), (0 : ℚ))] := by
      norm_num [get_all_anchors, generate_anchors, _scale_enum, _whctrs, _mkanchors,
        List.range_succ, List.range_zero, Prod.ext_iff]
    have hmem : ((0 : ℚ), (0 : ℚ)) ∈ (get_all_anchors 1 1 [(1 : ℚ)]).flatten := by
      rw [hflat]; exact List.mem_singleton.mpr rfl
    have := h _ hmem
    simp at this

/-! ## Claims about `use_preset` -/

/-- C6: `use_preset('visualize')` sets `(nms_thresh, score_thresh)` to
`(0.3, 0.7)`, `use_preset('evaluate')` sets them to `(0.3, 0.05)`, and every
other preset name raises the configuration error (`ValueError` in the source,
`InvalidConfiguration` in the spec's taxonomy) — never a silent default. -/
theorem C6_use_preset {α : Type} [LinearOrderedField α]
    (p : TimeSegmentRCNNPredictor α) (s : String)
    (h1 : s ≠ "visualize") (h2 : s ≠ "evaluate") :
    use_preset p "visualize" =
      ({ p with nms_thresh := some (3/10), score_thresh := some (7/10) }, none) ∧
    use_preset p "evaluate" =
      ({ p with nms_thresh := some (3/10), score_thresh := some (1/20) }, none) ∧
    use_preset p s =
      (p, some (PyError.valueError "preset must be visualize or evaluate")) := by
  refine ⟨?_, ?_, ?_⟩
  · simp [use_preset]
  · simp [use_preset]
  · simp [use_preset, h1, h2]

/-- Witness for C6 at a concrete predictor and the preset name `"invalid"`. -/
theorem C6_witness :
    use_preset (⟨((0 : ℚ), 0), (1, 1), 2, none, none⟩ : TimeSegmentRCNNPredictor ℚ)
        "visualize" =
      (⟨((0 : ℚ), 0), (1, 1), 2, some (3/10), some (7/10)⟩, none) ∧
    use_preset (⟨((0 : ℚ), 0), (1, 1), 2, none, none⟩ : TimeSegmentRCNNPredictor ℚ)
        "evaluate" =
      (⟨((0 : ℚ), 0), (1, 1), 2, some (3/10), some (1/20)⟩, none) ∧
    use_preset (⟨((0 : ℚ), 0), (1, 1), 2, none, none⟩ : TimeSegmentRCNNPredictor ℚ)
        "invalid" =
      (⟨((0 : ℚ), 0), (1, 1), 2, none, none⟩,
       some (PyError.valueError "preset must be visualize or evaluate")) :=
  C6_use_preset (⟨((0 : ℚ), 0), (1, 1), 2, none, none⟩ : TimeSegmentRCNNPredictor ℚ)
    "invalid" (by decide) (by decide)

/-- C10: `use_preset` touches only `nms_thresh` and `score_thresh`: for every
state and preset name the other fields (`loc_normalize_mean`,
`loc_normalize_std`, `n_class`) are unchanged, and when the call raises
(unknown preset) the whole state is returned unchanged — no partial update. -/
theorem C10_use_preset_frame {α : Type} [LinearOrderedField α]
    (p : TimeSegmentRCNNPredictor α) (s : String) :
    ((use_preset p s).1.loc_normalize_mean = p.loc_normalize_mean ∧
     (use_preset p s).1.loc_normalize_std = p.loc_normalize_std ∧
     (use_preset p s).1.n_class = p.n_class) ∧
    ((use_preset p s).2.isSome → (use_preset p s).1 = p) := by
  unfold use_preset
  by_cases h1 : s = "visualize"
  · simp [h1]
  · by_cases h2 : s = "evaluate"
    · simp [h1, h2]
    · simp [h1, h2]

/-- Witness for C10 at a concrete predictor and the unknown preset name
`"bogus"` (the raising branch, whose state must be untouched). -/
theorem C10_witness :
    ((use_preset (⟨((0 : ℚ), 0), ((1 : ℚ)/10, 2/10), 3, none, none⟩ :
        TimeSegmentRCNNPredictor ℚ) "bogus").1.loc_normalize_mean = ((0 : ℚ), 0) ∧
     (use_preset (⟨((0 : ℚ), 0), ((1 : ℚ)/10, 2/10), 3, none, none⟩ :
        TimeSegmentRCNNPredictor ℚ) "bogus").1.loc_normalize_std = ((1 : ℚ)/10, 2/10) ∧
     (use_preset (⟨((0 : ℚ), 0), ((1 : ℚ)/10, 2/10), 3, none, none⟩ :
        TimeSegmentRCNNPredictor ℚ) "bogus").1.n_class = 3) ∧
    ((use_preset (⟨((0 : ℚ), 0), ((1 : ℚ)/10, 2/10), 3, none, none⟩ :
        TimeSegmentRCNNPredictor ℚ) "bogus").2.isSome →
     (use_preset (⟨((0 : ℚ), 0), ((1 : ℚ)/10, 2/10), 3, none, none⟩ :
        TimeSegmentRCNNPredictor ℚ) "bogus").1 =
       ⟨((0 : ℚ), 0), ((1 : ℚ)/10, 2/10), 3, none, none⟩) :=
  C10_use_preset_frame
    (⟨((0 : ℚ), 0), ((1 : ℚ)/10, 2/10), 3, none, none⟩ : TimeSegmentRCNNPredictor ℚ)
    "bogus"

/-! ## Helper lemmas about `_suppress` -/

theorem suppress_class_ok {α : Type} [LinearOrderedField α]
    (p : TimeSegmentRCNNPredictor α) (bbox : List (List (α × α)))
    (score : List (List α)) (l : ℕ) (st nt : α)
    (hst : p.score_thresh = some st) (hnt : p.nms_thresh = some nt)
    (hlen : score.length = bbox.length) :
    suppress_class p bbox score l =
      Except.ok (suppress_class_pure nt st bbox score l) := by
  unfold suppress_class suppress_class_pure
  rw [hst, hnt]
  simp [maskSelect, maskSelectP, hlen]

theorem suppress_loop_ok {α : Type} [LinearOrderedField α]
    (p : TimeSegmentRCNNPredictor α) (bbox : List (List (α × α)))
    (score : List (List α)) (st nt : α)
    (hst : p.score_thresh = some st) (hnt : p.nms_thresh = some nt)
    (hlen : score.length = bbox.length) :
    ∀ ls : List ℕ, suppress_loop p bbox score ls =
      Except.ok (ls.map (fun l =>
        ((suppress_class_pure nt st bbox score l).1,
         List.replicate (suppress_class_pure nt st bbox score l).1.length ((l : ℤ) - 1),
         (suppress_class_pure nt st bbox score l).2))) := by
  intro ls
  induction ls with
  | nil => simp [suppress_loop]
  | cons l rest ih =>
    rw [suppress_loop, suppress_class_ok p bbox score l st nt hst hnt hlen, ih]
    rfl

theorem suppress_ok_join {α : Type} [LinearOrderedField α]
    (p : TimeSegmentRCNNPredictor α) (bbox : List (List (α × α)))
    (score : List (List α)) (st nt : α)
    (hst : p.score_thresh = some st) (hnt : p.nms_thresh = some nt)
    (hn : 2 ≤ p.n_class) (hlen : score.length = bbox.length) :
    _suppress p bbox score = Except.ok
      (((List.range' 1 (p.n_class - 1)).map
          (fun l => (suppress_class_pure nt st bbox score l).1)).flatten,
       ((List.range' 1 (p.n_class - 1)).map
          (fun l => List.replicate (suppress_class_pure nt st bbox score l).1.length
            ((l : ℤ) - 1))).flatten,
       ((List.range' 1 (p.n_class - 1)).map
          (fun l => (suppress_class_pure nt st bbox score l).2)).flatten) := by
  unfold _suppress
  rw [suppress_loop_ok p bbox score st nt hst hnt hlen]
  have h1 : p.n_class - 1 = (p.n_class - 2) + 1 := by omega
  rw [h1, List.range'_succ]
  simp [List.map_map, Function.comp_def]

theorem suppress_class_err_no_st {α : Type} [LinearOrderedField α]
    (p : TimeSegmentRCNNPredictor α) (bbox : List (List (α × α)))
    (score : List (List α)) (l : ℕ) (hst : p.score_thresh = none) :
    suppress_class p bbox score l =
      Except.error (PyError.attributeError "score_thresh") := by
  unfold suppress_class
  rw [hst]

theorem suppress_class_err_mismatch {α : Type} [LinearOrderedField α]
    (p : TimeSegmentRCNNPredictor α) (bbox : List (List (α × α)))
    (score : List (List α)) (l : ℕ) (st : α)
    (hst : p.score_thresh = some st) (hne : score.length ≠ bbox.length) :
    suppress_class p bbox score l =
      Except.error (PyError.indexError "boolean index did not match indexed array") := by
  unfold suppress_class
  rw [hst]
  have hc : ¬ (bbox.length = score.length) := fun h => hne h.symm
  simp [maskSelect, hc]

theorem suppress_class_err_no_nt {α : Type} [LinearOrderedField α]
    (p : TimeSegmentRCNNPredictor α) (bbox : List (List (α × α)))
    (score : List (List α)) (l : ℕ) (st : α)
    (hst : p.score_thresh = some st) (hnt : p.nms_thresh = none)
    (hlen : score.length = bbox.length) :
    suppress_class p bbox score l =
      Except.error (PyError.attributeError "nms_thresh") := by
  unfold suppress_class
  rw [hst, hnt]
  simp [maskSelect, hlen]

theorem suppress_loop_err {α : Type} [LinearOrderedField α]
    (p : TimeSegmentRCNNPredictor α) (bbox : List (List (α × α)))
    (score : List (List α)) (l : ℕ) (rest : List ℕ) (e : PyError)
    (he : suppress_class p bbox score l = Except.error e) :
    suppress_loop p bbox score (l :: rest) = Except.error e := by
  rw [suppress_loop, he]

theorem _suppress_err {α : Type} [LinearOrderedField α]
    (p : TimeSegmentRCNNPredictor α) (bbox : List (List (α × α)))
    (score : List (List α)) (e : PyError) (hn : 2 ≤ p.n_class)
    (he : suppress_class p bbox score 1 = Except.error e) :
    _suppress p bbox score = Except.error e := by
  unfold _suppress
  have h1 : p.n_class - 1 = (p.n_class - 2) + 1 := by omega
  rw [h1, List.range'_succ, suppress_loop_err p bbox score 1 _ e he]

/-! ## Claims about `_suppress` -/

/-- C1: on well-shaped input with both thresholds set, `_suppress` succeeds
and returns exactly the concatenation, in ascending class order, of the
per-class results for the foreground classes `l = 1 .. n_class - 1`
(background class `0` is never processed); each surviving proposal of class
`l` is emitted with the integer label `l - 1`, so every output label lies in
`[0, n_class - 2]`.  The same proposal row may be selected by several classes,
and nothing removes such cross-class duplicates — the output is a plain
per-class concatenation. -/
theorem C1_suppress_foreground {α : Type} [LinearOrderedField α]
    (p : TimeSegmentRCNNPredictor α) (raw_cls_bbox : List (List (α × α)))
    (raw_score : List (List α)) (st nt : α)
    (hst : p.score_thresh = some st) (hnt : p.nms_thresh = some nt)
    (hn : 2 ≤ p.n_class) (hlen : raw_score.length = raw_cls_bbox.length)
    (hb : ∀ row ∈ raw_cls_bbox, row.length = p.n_class)
    (hs : ∀ row ∈ raw_score, row.length = p.n_class) :
    _suppress p raw_cls_bbox raw_score = Except.ok
      (((List.range' 1 (p.n_class - 1)).map
          (fun l => (suppress_class_pure nt st raw_cls_bbox raw_score l).1)).flatten,
       ((List.range' 1 (p.n_class - 1)).map
          (fun l => List.replicate
            (suppress_class_pure nt st raw_cls_bbox raw_score l).1.length
            ((l : ℤ) - 1))).flatten,
       ((List.range' 1 (p.n_class - 1)).map
          (fun l => (suppress_class_pure nt st raw_cls_bbox raw_score l).2)).flatten) ∧
    ∀ lab ∈ ((List.range' 1 (p.n_class - 1)).map
          (fun l => List.replicate
            (suppress_class_pure nt st raw_cls_bbox raw_score l).1.length
            ((l : ℤ) - 1))).flatten,
      0 ≤ lab ∧ lab ≤ (p.n_class : ℤ) - 2 := by
  refine ⟨suppress_ok_join p raw_cls_bbox raw_score st nt hst hnt hn hlen, ?_⟩
  intro lab hlab
  rw [List.mem_flatten] at hlab
  obtain ⟨bl, hbl, hlabbl⟩ := hlab
  rw [List.mem_map] at hbl
  obtain ⟨l, hl, rfl⟩ := hbl
  have hlab' := List.eq_of_mem_replicate hlabbl
  subst hlab'
  rw [List.mem_range'] at hl
  obtain ⟨i, hi, rfl⟩ := hl
  push_cast
  omega

/-- Witness for C1 at a concrete `ℚ`-predictor with two classes, one proposal
row. -/
theorem C1_witness :
    ∃ out : List (ℚ × ℚ) × List ℤ × List ℚ,
      _suppress
        (⟨((0 : ℚ), 0), (1, 1), 2, some (3/10), some (1/2)⟩ :
          TimeSegmentRCNNPredictor ℚ)
        [[((0 : ℚ), 1), ((0 : ℚ), 1)]] [[(0 : ℚ), 9/10]] = Except.ok out ∧
      ∀ lab ∈ out.2.1, 0 ≤ lab ∧ lab ≤
        ((⟨((0 : ℚ), 0), (1, 1), 2, some (3/10), some (1/2)⟩ :
          TimeSegmentRCNNPredictor ℚ).n_class : ℤ) - 2 := by
  have h := C1_suppress_foreground
    (⟨((0 : ℚ), 0), (1, 1), 2, some (3/10), some (1/2)⟩ : TimeSegmentRCNNPredictor ℚ)
    [[((0 : ℚ), 1), ((0 : ℚ), 1)]] [[(0 : ℚ), 9/10]] (1/2) (3/10)
    rfl rfl (by decide) rfl
    (by intro row hrow; simp only [List.mem_singleton] at hrow; subst hrow; rfl)
    (by intro row hrow; simp only [List.mem_singleton] at hrow; subst hrow; rfl)
  exact ⟨_, h.1, h.2⟩

theorem maskSelectP_all_false {β : Type} :
    ∀ (xs : List β) (mask : List Bool), (∀ b ∈ mask, b = false) →
      maskSelectP xs mask = [] := by
  intro xs
  induction xs with
  | nil => intro mask _; simp [maskSelectP]
  | cons x xs ih =>
    intro mask hmask
    cases mask with
    | nil => simp [maskSelectP]
    | cons b mask' =>
      have hb : b = false := hmask b (List.mem_cons_self _ _)
      subst hb
      have htail := ih mask' (fun b hb => hmask b (List.mem_cons_of_mem _ hb))
      simp only [maskSelectP, List.zip_cons_cons, List.filter_cons] at htail ⊢
      simpa using htail

/-- C7: if no proposal's score for a foreground class `l` exceeds
`score_thresh`, then class `l`'s per-class result is empty, the whole
`_suppress` call still succeeds with an output containing no detection
labelled `l - 1`, and the per-class results of every other class are
unaffected (they only depend on their own score column). -/
theorem C7_empty_class {α : Type} [LinearOrderedField α]
    (p : TimeSegmentRCNNPredictor α) (bbox : List (List (α × α)))
    (score : List (List α)) (st nt : α) (l : ℕ)
    (hst : p.score_thresh = some st) (hnt : p.nms_thresh = some nt)
    (hn : 2 ≤ p.n_class) (hlen : score.length = bbox.length)
    (hb : ∀ row ∈ bbox, row.length = p.n_class)
    (hs : ∀ row ∈ score, row.length = p.n_class)
    (hempty : ∀ row ∈ score, ¬ st < row.getD l 0) :
    suppress_class p bbox score l = Except.ok ([], []) ∧
    (∃ out, _suppress p bbox score = Except.ok out ∧ ((l : ℤ) - 1) ∉ out.2.1) ∧
    (∀ (score' : List (List α)) (l' : ℕ), score'.length = score.length →
      (∀ r c, c ≠ l → (score'.getD r []).getD c 0 = (score.getD r []).getD c 0) →
      l' ≠ l →
      suppress_class_pure nt st bbox score' l' =
        suppress_class_pure nt st bbox score l') := by
  have hmask : ∀ b ∈ (score.map (fun row => row.getD l 0)).map
      (fun pr => decide (st < pr)), b = false := by
    intro b hb
    simp only [List.mem_map] at hb
    obtain ⟨pr, ⟨row, hrow, rfl⟩, rfl⟩ := hb
    exact decide_eq_false (hempty row hrow)
  have hpure : suppress_class_pure nt st bbox score l = ([], []) := by
    simp only [suppress_class_pure]
    rw [maskSelectP_all_false _ _ hmask, maskSelectP_all_false _ _ hmask]
    simp [non_maximum_suppression, List.insertionSort, nms_greedy]
  refine ⟨?_, ?_, ?_⟩
  · rw [suppress_class_ok p bbox score l st nt hst hnt hlen, hpure]
  · refine ⟨_, suppress_ok_join p bbox score st nt hst hnt hn hlen, ?_⟩
    intro hmem
    simp only [] at hmem
    rw [List.mem_flatten] at hmem
    obtain ⟨bl, hbl, hmem'⟩ := hmem
    rw [List.mem_map] at hbl
    obtain ⟨l', hl', rfl⟩ := hbl
    have heq := List.eq_of_mem_replicate hmem'
    have hll : l = l' := by omega
    subst hll
    rw [hpure] at hmem'
    simp at hmem'
  · intro score' l' hlen' hag hne
    have hprob : score'.map (fun row => row.getD l' 0) =
        score.map (fun row => row.getD l' 0) := by
      apply List.ext_getElem?
      intro n
      rw [List.getElem?_map, List.getElem?_map]
      by_cases hlt : n < score.length
      · have hlt' : n < score'.length := by rw [hlen']; exact hlt
        rw [List.getElem?_eq_getElem hlt, List.getElem?_eq_getElem hlt']
        have h1 : score'.getD n [] = score'[n] := by
          rw [List.getD_eq_getElem?_getD, List.getElem?_eq_getElem hlt']; rfl
        have h2 : score.getD n [] = score[n] := by
          rw [List.getD_eq_getElem?_getD, List.getElem?_eq_getElem hlt]; rfl
        have := hag n l' hne
        rw [h1, h2] at this
        simpa using this
      · rw [List.getElem?_eq_none (by omega), List.getElem?_eq_none (by omega)]
    unfold suppress_class_pure
    rw [hprob]

/-- Witness for C7: three classes, one proposal row whose class-2 score `0.1`
does not exceed the threshold `0.5`. -/
theorem C7_witness :
    suppress_class
      (⟨((0 : ℚ), 0), (1, 1), 3, some (3/10), some (1/2)⟩ :
        TimeSegmentRCNNPredictor ℚ)
      [[((0 : ℚ), 1), ((0 : ℚ), 1), ((0 : ℚ), 1)]]
      [[(0 : ℚ), 9/10, 1/10]] 2 = Except.ok ([], []) ∧
    (∃ out, _suppress
      (⟨((0 : ℚ), 0), (1, 1), 3, some (3/10), some (1/2)⟩ :
        TimeSegmentRCNNPredictor ℚ)
      [[((0 : ℚ), 1), ((0 : ℚ), 1), ((0 : ℚ), 1)]]
      [[(0 : ℚ), 9/10, 1/10]] = Except.ok out ∧ (((2 : ℕ) : ℤ) - 1) ∉ out.2.1) := by
  have h := C7_empty_class
    (⟨((0 : ℚ), 0), (1, 1), 3, some (3/10), some (1/2)⟩ : TimeSegmentRCNNPredictor ℚ)
    [[((0 : ℚ), 1), ((0 : ℚ), 1), ((0 : ℚ), 1)]]
    [[(0 : ℚ), 9/10, 1/10]] (1/2) (3/10) 2 rfl rfl (by decide) rfl
    (by intro row hrow; simp only [List.mem_singleton] at hrow; subst hrow; rfl)
    (by intro row hrow; simp only [List.mem_singleton] at hrow; subst hrow; rfl)
    (by
      intro row hrow
      simp only [List.mem_singleton] at hrow
      subst hrow
      norm_num [List.getD_eq_getElem?_getD])
  exact ⟨h.1, h.2.1⟩

/-! ## Claims about `predict` -/

/-- C2 (amended): every decoded interval is clipped to `[0, seq_len]` before
suppression (the clip stage `predict_decode_clip` is exactly what `predict`
feeds to `_suppress`): after clipping both coordinates of every interval lie
in `[0, seq_len]`, and the clip preserves `x_min ≤ x_max` whenever it held for
the raw decoded interval (clipping is monotone).  (The original claim's
`x_min ≤ x_max` for every decoded interval is false: a raw decode of width
`< 1` is inverted and stays inverted after clipping — see the
counterexample.) -/
theorem C2_decode_clip_in_range {α : Type} [LinearOrderedField α]
    (expf : α → α) (p : TimeSegmentRCNNPredictor α)
    (roi_cls_locs : List (List (α × α))) (rois : List (α × α)) (seq_len : ℕ) :
    (∀ row ∈ predict_decode_clip expf p roi_cls_locs rois seq_len,
      ∀ iv ∈ row,
        0 ≤ iv.1 ∧ iv.1 ≤ (seq_len : α) ∧ 0 ≤ iv.2 ∧ iv.2 ≤ (seq_len : α)) ∧
    (∀ x y : α, x ≤ y → npclip 0 (seq_len : α) x ≤ npclip 0 (seq_len : α) y) := by
  constructor
  · intro row hrow iv hiv
    simp only [predict_decode_clip, List.mem_map] at hrow
    obtain ⟨pr, _, rfl⟩ := hrow
    simp only [List.mem_map] at hiv
    obtain ⟨loc, _, rfl⟩ := hiv
    simp only [npclip]
    have h0 : (0 : α) ≤ (seq_len : α) := Nat.cast_nonneg _
    exact ⟨le_min (le_max_right _ _) h0, min_le_right _ _,
           le_min (le_max_right _ _) h0, min_le_right _ _⟩
  · intro x y hxy
    simp only [npclip]
    exact min_le_min (max_le_max hxy le_rfl) le_rfl

/-- Witness for C2 (amended) at `α = ℚ` with the identity in place of the
exponential: the single decoded interval is clipped to `(1/2, 0)`, whose
coordinates lie in `[0, 10]`. -/
theorem C2_witness :
    (0 ≤ ((1 : ℚ)/2) ∧ (1 : ℚ)/2 ≤ ((10 : ℕ) : ℚ) ∧
     0 ≤ (0 : ℚ) ∧ (0 : ℚ) ≤ ((10 : ℕ) : ℚ)) ∧
    npclip 0 ((10 : ℕ) : ℚ) 0 ≤ npclip 0 ((10 : ℕ) : ℚ) 1 := by
  have h := C2_decode_clip_in_range (α := ℚ) id
    (⟨((0 : ℚ), 0), (1, 1), 2, none, none⟩ : TimeSegmentRCNNPredictor ℚ)
    [[((0 : ℚ), 0)]] [((0 : ℚ), 0)] 10
  have hrow : predict_decode_clip (id : ℚ → ℚ)
      (⟨((0 : ℚ), 0), (1, 1), 2, none, none⟩ : TimeSegmentRCNNPredictor ℚ)
      [[((0 : ℚ), 0)]] [((0 : ℚ), 0)] 10 = [[((1 : ℚ)/2, 0)]] := by
    simp only [predict_decode_clip, decode_segment_target, npclip,
      List.zip_cons_cons, List.zip_nil_right, List.map_cons, List.map_nil]
    norm_num
  constructor
  · exact h.1 _ (by rw [hrow]; exact List.mem_singleton.mpr rfl)
      ((1 : ℚ)/2, 0) (List.mem_singleton.mpr rfl)
  · exact h.2 0 1 (by norm_num)

/-- Counterexample to C2 as stated: with the real exponential, the RoI
`(0, 0)` (reference width `1`) and the denormalized offset `(0, -1)` decode to
an interval of width `exp(-1) < 1`, i.e. `x_min > x_max`; clipping to
`[0, 10]` yields `(0.5*(1 - exp(-1)), 0)`, which still violates
`x_min ≤ x_max`. -/
theorem C2_counterexample :
    ¬ (∀ row ∈ predict_decode_clip Real.exp
        (⟨((0 : ℝ), 0), (1, 1), 2, none, none⟩ : TimeSegmentRCNNPredictor ℝ)
        [[((0 : ℝ), -1), ((0 : ℝ), -1)]] [((0 : ℝ), 0)] 10,
       ∀ iv ∈ row, iv.1 ≤ iv.2) := by
  intro h
  have he1 : Real.exp (-1) < 1 := by
    rw [Real.exp_lt_one_iff]; norm_num
  have he0 : (0 : ℝ) < Real.exp (-1) := Real.exp_pos _
  have hrow : predict_decode_clip Real.exp
      (⟨((0 : ℝ), 0), (1, 1), 2, none, none⟩ : TimeSegmentRCNNPredictor ℝ)
      [[((0 : ℝ), -1), ((0 : ℝ), -1)]] [((0 : ℝ), 0)] 10 =
      [[((1/2) * (1 - Real.exp (-1)), 0), ((1/2) * (1 - Real.exp (-1)), 0)]] := by
    simp only [predict_decode_clip, decode_segment_target, npclip,
      List.zip_cons_cons, List.zip_nil_right, List.map_cons, List.map_nil]
    norm_num
    constructor
    · rw [max_eq_left (by nlinarith), min_eq_left (by nlinarith)]
      ring
    · rw [max_eq_right (by nlinarith), min_eq_left (by norm_num)]
  have hm1 : [((1/2) * (1 - Real.exp (-1)), (0 : ℝ)),
              ((1/2) * (1 - Real.exp (-1)), (0 : ℝ))] ∈
      predict_decode_clip Real.exp
        (⟨((0 : ℝ), 0), (1, 1), 2, none, none⟩ : TimeSegmentRCNNPredictor ℝ)
        [[((0 : ℝ), -1), ((0 : ℝ), -1)]] [((0 : ℝ), 0)] 10 := by
    rw [hrow]; exact List.mem_singleton.mpr rfl
  have hle := h _ hm1 ((1/2) * (1 - Real.exp (-1)), (0 : ℝ))
    (List.mem_cons_self _ _)
  simp only [] at hle
  nlinarith

/-- C8: when the localization rows agree with the RoIs (the `assert` passes)
but the number of score rows differs from the number of decoded-segment rows,
`predict` (with `score_thresh` set and at least one foreground class) raises
the shape error — numpy's `IndexError` from the boolean mask, the spec's
`ShapeMismatch` — and, being an exception, produces no partial output and
never truncates. -/
theorem C8_shape_mismatch {α : Type} [LinearOrderedField α] (expf : α → α)
    (p : TimeSegmentRCNNPredictor α)
    (roi_cls_locs : List (List (α × α))) (roi_scores : List (List α))
    (rois : List (α × α)) (seq_len : ℕ) (st : α)
    (hst : p.score_thresh = some st) (hn : 2 ≤ p.n_class)
    (hlr : roi_cls_locs.length = rois.length)
    (hmis : roi_scores.length ≠ roi_cls_locs.length) :
    predict expf p roi_cls_locs roi_scores rois seq_len =
      Except.error (PyError.indexError "boolean index did not match indexed array") := by
  unfold predict
  rw [if_pos hlr]
  apply _suppress_err p _ _ _ hn
  apply suppress_class_err_mismatch p _ _ 1 st hst
  have h1 : (softmax expf roi_scores).length = roi_scores.length := by
    simp [softmax]
  have h2 : (predict_decode_clip expf p roi_cls_locs rois seq_len).length =
      roi_cls_locs.length := by
    simp [predict_decode_clip, List.length_zip, hlr]
  rw [h1, h2]
  exact hmis

/-- Witness for C8: zero localization rows and RoIs but one score row. -/
theorem C8_witness :
    predict Real.exp
      (⟨((0 : ℝ), 0), (1, 1), 2, none, some (1/2)⟩ : TimeSegmentRCNNPredictor ℝ)
      [] [[(0 : ℝ), 0]] [] 5 =
      Except.error (PyError.indexError "boolean index did not match indexed array") :=
  C8_shape_mismatch Real.exp
    (⟨((0 : ℝ), 0), (1, 1), 2, none, some (1/2)⟩ : TimeSegmentRCNNPredictor ℝ)
    [] [[(0 : ℝ), 0]] [] 5 (1/2) rfl (by decide) rfl (by decide)

/-- C9: the constructor leaves `nms_thresh` and `score_thresh` unset, so
(with at least one foreground class and the `assert` passing) calling
`predict` on a freshly constructed predictor raises `AttributeError` on
`score_thresh`; and setting only `score_thresh` is not enough — the call then
raises `AttributeError` on `nms_thresh`.  `predict` only runs to completion
after both thresholds have been assigned (via `use_preset` or directly). -/
theorem C9_thresholds_required {α : Type} [LinearOrderedField α] (expf : α → α)
    (mean std : α × α) (n : ℕ) (stv : α)
    (roi_cls_locs : List (List (α × α))) (roi_scores : List (List α))
    (rois : List (α × α)) (seq_len : ℕ)
    (hn : 2 ≤ n) (hlr : roi_cls_locs.length = rois.length) :
    (TimeSegmentRCNNPredictor.init mean std n :
        TimeSegmentRCNNPredictor α).nms_thresh = none ∧
    (TimeSegmentRCNNPredictor.init mean std n :
        TimeSegmentRCNNPredictor α).score_thresh = none ∧
    predict expf (TimeSegmentRCNNPredictor.init mean std n)
        roi_cls_locs roi_scores rois seq_len =
      Except.error (PyError.attributeError "score_thresh") ∧
    (roi_scores.length = roi_cls_locs.length →
      predict expf
          { TimeSegmentRCNNPredictor.init mean std n with score_thresh := some stv }
          roi_cls_locs roi_scores rois seq_len =
        Except.error (PyError.attributeError "nms_thresh")) := by
  refine ⟨rfl, rfl, ?_, ?_⟩
  · unfold predict
    rw [if_pos hlr]
    apply _suppress_err _ _ _ _ hn
    exact suppress_class_err_no_st _ _ _ 1 rfl
  · intro hsl
    unfold predict
    rw [if_pos hlr]
    apply _suppress_err _ _ _ _ hn
    apply suppress_class_err_no_nt _ _ _ 1 stv rfl rfl
    have h1 : (softmax expf roi_scores).length = roi_scores.length := by
      simp [softmax]
    have h2 : (predict_decode_clip expf
        { TimeSegmentRCNNPredictor.init mean std n with score_thresh := some stv }
        roi_cls_locs rois seq_len).length = roi_cls_locs.length := by
      simp [predict_decode_clip, List.length_zip, hlr]
    rw [h1, h2]
    exact hsl

/-- Witness for C9 at concrete empty inputs over `ℝ`. -/
theorem C9_witness :
    (TimeSegmentRCNNPredictor.init ((0 : ℝ), 0) (1, 1) 2 :
        TimeSegmentRCNNPredictor ℝ).nms_thresh = none ∧
    (TimeSegmentRCNNPredictor.init ((0 : ℝ), 0) (1, 1) 2 :
        TimeSegmentRCNNPredictor ℝ).score_thresh = none ∧
    predict Real.exp (TimeSegmentRCNNPredictor.init ((0 : ℝ), 0) (1, 1) 2)
        [] [] [] 5 =
      Except.error (PyError.attributeError "score_thresh") ∧
    (List.length ([] : List (List ℝ)) = List.length ([] : List (List (ℝ × ℝ))) →
      predict Real.exp
          { TimeSegmentRCNNPredictor.init ((0 : ℝ), 0) (1, 1) 2 with
              score_thresh := some (1/2) }
          [] [] [] 5 =
        Except.error (PyError.attributeError "nms_thresh")) :=
  C9_thresholds_required Real.exp ((0 : ℝ), 0) (1, 1) 2 (1/2) [] [] [] 5
    (by decide) rfl
